import Mathlib

/-!
Shallow embedding of `nba_chatbot_web.py` (an NBA stats chatbot).

The repository is a single Streamlit script.  Its core logic —
entity resolution (`extract_season_year`, `find_player_id`,
`find_multiple_players`), the ordered intent dispatch inside
`generate_response`, the dialogue state (`last_player` / `last_season`),
and the query handlers (`get_stats_for_season`, `compare_players`,
`get_top_scorers`, `get_career_averages`, `get_player_bio`) — is embedded
below as executable Lean definitions, keeping the source's names.

External collaborators are parameters of the embedding:
* the `nba_api` stats backend is a `Backend` record of functions returning
  `Except String _` (a Python exception is `Except.error`; code with no
  `try` block is written in the `Except` monad so errors propagate, and
  code with `try/except` pattern-matches the `Except` and converts it);
* the roster loaded at startup (`players.get_players()`) is a
  `List Player` parameter;
* `difflib.get_close_matches(user_input, player_names, n=1, cutoff=0.5)`
  is abstracted as an oracle `fuzzy : String → Option String` (its
  contract: any returned name is drawn from the candidate list).

Python-value conventions of the embedding: roster names and utterances are
ASCII, so `str.lower()` is `Char.toLower` mapped over the string; numeric
stat values from the backend are carried as `Rat` (they are only moved
around and formatted, never computed with); `f"{x:.1f}"` on such a value is
a fixed stand-in formatter `fmt1`; Python `None`-vs-value truthiness tests
on resolver results are `Option` matches (roster ids and names are
non-falsy: real NBA ids are positive and names nonempty).
-/

/-- Python `str.lower()` (ASCII inputs): lower-case every character. -/
def pyLower (s : String) : String := String.mk (s.data.map Char.toLower)

/-- Helper for `pyIn`: list-of-chars starts-with test. -/
def chStarts : List Char → List Char → Bool
  | [], _ => true
  | _ :: _, [] => false
  | a :: as, b :: bs => a == b && chStarts as bs

/-- Helper for `pyIn`: substring test on char lists. -/
def chSub (sub : List Char) : List Char → Bool
  | [] => chStarts sub []
  | c :: rest => chStarts sub (c :: rest) || chSub sub rest

/-- Python `sub in s` substring containment on strings. -/
def pyIn (sub s : String) : Bool := chSub sub.data s.data

/-- Python `s[-2:]`: the last two characters (the whole string if shorter). -/
def lastTwo (s : String) : String := String.mk (s.data.drop (s.data.length - 2))

/-- Python `s[:10]`: the first ten characters. -/
def pyTake10 (s : String) : String := String.mk (s.data.take 10)

/-- The ASCII digit character for `d < 10`. -/
def digitChar (d : Nat) : Char := Char.ofNat (48 + d)

/-- Fuel-indexed digit production (structural recursion, so that concrete
values reduce inside the kernel); `natDigits` below supplies ample fuel. -/
def natDigitsGo : Nat → Nat → List Char
  | fuel + 1, n =>
    if n < 10 then [digitChar n]
    else natDigitsGo fuel (n / 10) ++ [digitChar (n % 10)]
  | 0, _ => []

/-- Decimal digit characters of a natural number, most significant first
(the characters of Python `str(n)`). -/
def natDigits (n : Nat) : List Char := natDigitsGo (n + 1) n

theorem natDigitsGo_congr : ∀ (fuel fuel' n : Nat), n < fuel → n < fuel' →
    natDigitsGo fuel n = natDigitsGo fuel' n := by
  intro fuel
  induction fuel with
  | zero => intro fuel' n h; omega
  | succ f ih =>
    intro fuel' n h h'
    cases fuel' with
    | zero => omega
    | succ f' =>
      simp only [natDigitsGo]
      by_cases h10 : n < 10
      · simp [h10]
      · have hd : n / 10 < n := Nat.div_lt_self (by omega) (by omega)
        rw [if_neg h10, if_neg h10, ih f' (n / 10) (by omega) (by omega)]

/-- The intended recursion equation of `natDigits`. -/
theorem natDigits_eq (n : Nat) : natDigits n =
    if n < 10 then [digitChar n]
    else natDigits (n / 10) ++ [digitChar (n % 10)] := by
  show natDigitsGo (n + 1) n = _
  simp only [natDigitsGo]
  by_cases h10 : n < 10
  · simp [h10]
  · have hd : n / 10 < n := Nat.div_lt_self (by omega) (by omega)
    rw [if_neg h10, if_neg h10,
      natDigitsGo_congr n (n / 10 + 1) (n / 10) (by omega) (by omega)]
    rfl

/-- Python `str(n)` for a natural number. -/
def pyStr (n : Nat) : String := String.mk (natDigits n)

/-- Python `str(i)` for an integer. -/
def pyStrInt (i : Int) : String :=
  if i < 0 then "-" ++ pyStr i.natAbs else pyStr i.toNat

/-- Python `int(s)` on a decimal-digit string (the only strings reaching it
in this program are 4-digit year tokens produced by the year regex). -/
def pyToInt (s : String) : Int :=
  ((s.data.foldl (fun a c => a * 10 + (c.toNat - 48)) 0 : Nat) : Int)

/-- Python `f"{x}"` on an optional string: `None` renders as `"None"`. -/
def pyRepr : Option String → String
  | none => "None"
  | some s => s

/-- Stand-in for Python `f"{x:.1f}"` on a backend stat value carried as a
rational (round to one decimal place; the bit-level rounding of CPython's
float formatting is outside this embedding, and no claim depends on it). -/
def fmt1 (q : Rat) : String :=
  let n : Int := (q * 10 + 1 / 2).floor
  let sign := if n < 0 then "-" else ""
  sign ++ pyStr (n.natAbs / 10) ++ "." ++ pyStr (n.natAbs % 10)

/-- One entry of `players.get_players()`: the roster record the script
reads (`full_name`, `id`, `is_active`). -/
structure Player where
  full_name : String
  id : Nat
  is_active : Bool
deriving DecidableEq

/-- One row of the career dataframe `playercareerstats.PlayerCareerStats(
player_id).get_data_frames()[0]` — the columns the script reads. -/
structure SeasonRow where
  season_id : String
  team_abbreviation : String
  pts : Rat
  ast : Rat
  reb : Rat
  gp : Nat
  fg_pct : Rat
deriving DecidableEq

/-- The dict built by `get_stats_for_season`. -/
structure Stats where
  season : String
  team : String
  pts : Rat
  ast : Rat
  reb : Rat
  games : Nat
  fg_pct : Rat
deriving DecidableEq

/-- The dict built by `get_career_averages`. -/
structure CareerAvg where
  pts : Rat
  ast : Rat
  reb : Rat
  games : Nat
  fg_pct : Rat
deriving DecidableEq

/-- One row of the league-leaders dataframe — the columns the script reads
(`PLAYER`, `TEAM`, and the stat column, always `PTS` here). -/
structure LeaderRow where
  player : String
  team : String
  pts : Rat
deriving DecidableEq

/-- The per-conversation mutable session state the script keeps in
`st.session_state` (`last_player`, `last_season`). -/
structure DialogueState where
  last_player : Option String
  last_season : Option String
deriving DecidableEq

/-- The `nba_api` stats backend.  Each operation may raise (`Except.error`
carries the exception's text).  `playerCareerStats` takes an `Option Nat`
because `generate_response` line 213 passes `find_player_id`'s result to it
unchecked. -/
structure Backend where
  playerCareerStats : Option Nat → Except String (List SeasonRow)
  leagueLeaders : String → Except String (List LeaderRow)
  commonPlayerInfo : Nat → Except String (List (String × Option String))

/-- The environment of one process: the roster loaded at startup, the
abstracted fuzzy matcher, and the backend. -/
structure Env where
  all_players : List Player
  fuzzy : String → Option String
  backend : Backend

/-- Module-level `player_names = [p['full_name'] for p in all_players]`. -/
def player_names (all_players : List Player) : List String :=
  all_players.map (fun p => p.full_name)

/-- `extract_season_year` scan: at each position, try to match the regex
`\b(20[0-9]{2}|19[0-9]{2})\b`; `prev` is the character just before the
current position (word-boundary check), scanning left to right as
`re.search` does. -/
def esyGo (prev : Option Char) : List Char → Option String
  | c1 :: c2 :: c3 :: c4 :: rest =>
    if (match prev with
        | none => true
        | some c => !(c.isAlphanum || c == '_'))
        && ((c1 == '2' && c2 == '0') || (c1 == '1' && c2 == '9'))
        && c3.isDigit && c4.isDigit
        && (match rest with
            | [] => true
            | c :: _ => !(c.isAlphanum || c == '_')) then
      some (String.mk [c1, c2, c3, c4])
    else
      esyGo (some c1) (c2 :: c3 :: c4 :: rest)
  | _ => none

/-- `extract_season_year(text)`: first `19xx`/`20xx` word-bounded 4-digit
token of the text, or `None`. -/
def extract_season_year (text : String) : Option String :=
  esyGo none text.data

/-- `find_player_id(player_name)`: first roster entry whose full name
matches case-insensitively; returns its id. -/
def find_player_id (all_players : List Player) (player_name : String) : Option Nat :=
  match all_players.find? (fun p => pyLower p.full_name == pyLower player_name) with
  | some p => some p.id
  | none => none

/-- The season label computed at lines 50 and 106:
`f"{int(season_year)-1}-{str(season_year)[-2:]}"` (`season_year` is already
a string there, so `str()` is the identity). -/
def seasonIdOfYear (season_year : String) : String :=
  pyStrInt (pyToInt season_year - 1) ++ "-" ++ lastTwo season_year

/-- `df.iloc[-1]`: last row, raising `IndexError` on an empty frame. -/
def iloc_last (df : List SeasonRow) : Except String SeasonRow :=
  match df.getLast? with
  | some r => Except.ok r
  | none => Except.error "single positional indexer is out-of-bounds"

/-- `get_stats_for_season(player_id, season_year)`.  No `try` block: a
backend exception propagates.  An exact-label miss returns `None` (embedded
as `Except.ok none`) — the `# No fallback` branch. -/
def get_stats_for_season (b : Backend) (player_id : Option Nat)
    (season_year : Option String) : Except String (Option Stats) := do
  let df ← b.playerCareerStats player_id
  match season_year with
  | some y =>
    let season_id := seasonIdOfYear y
    match df.filter (fun r => r.season_id == season_id) with
    | [] => return none
    | row :: _ =>
      return some ⟨row.season_id, row.team_abbreviation, row.pts, row.ast,
        row.reb, row.gp, row.fg_pct⟩
  | none =>
    let row ← iloc_last df
    return some ⟨row.season_id, row.team_abbreviation, row.pts, row.ast,
      row.reb, row.gp, row.fg_pct⟩

/-- Loop of `find_multiple_players`: scan names in roster order, collect
case-insensitive substring hits, break as soon as two are found (`acc`
holds the first hit, if any). -/
def fmpGo (text : String) : List String → Option String → Option (String × String)
  | [], _ => none
  | n :: rest, acc =>
    if pyIn (pyLower n) (pyLower text) then
      match acc with
      | none => fmpGo text rest (some n)
      | some m => some (m, n)
    else
      fmpGo text rest acc

/-- `find_multiple_players(text)`: the first two roster names appearing
(case-insensitively) as substrings of the text, or `None` if fewer than
two appear. -/
def find_multiple_players (names : List String) (text : String) :
    Option (String × String) :=
  fmpGo text names none

/-- The comparison table text of `compare_players` (lines 93-103). -/
def compareText (name1 name2 : String) (s1 s2 : Stats) : String :=
  "📊 **" ++ name1 ++ " vs " ++ name2 ++ "** in " ++ s1.season ++ ":\n\n" ++
  "| Stat     | " ++ name1 ++ " | " ++ name2 ++ " |\n" ++
  "|----------|---------|---------|\n" ++
  "| Team     | " ++ s1.team ++ " | " ++ s2.team ++ " |\n" ++
  "| Games    | " ++ pyStr s1.games ++ " | " ++ pyStr s2.games ++ " |\n" ++
  "| PPG      | " ++ fmt1 s1.pts ++ " | " ++ fmt1 s2.pts ++ " |\n" ++
  "| APG      | " ++ fmt1 s1.ast ++ " | " ++ fmt1 s2.ast ++ " |\n" ++
  "| RPG      | " ++ fmt1 s1.reb ++ " | " ++ fmt1 s2.reb ++ " |\n" ++
  "| FG%      | " ++ fmt1 (s1.fg_pct * 100) ++ "% | " ++
    fmt1 (s2.fg_pct * 100) ++ "% |\n"

/-- `compare_players(name1, name2, season_year)`.  Both id lookups, then
both stat lookups (no `try`: a backend exception from either propagates);
a `None` from either stat lookup yields the generic unavailable message,
which interpolates `season_year` itself (so `None` when no season). -/
def compare_players (b : Backend) (all_players : List Player)
    (name1 name2 : String) (season_year : Option String) :
    Except String String := do
  match find_player_id all_players name1, find_player_id all_players name2 with
  | some id1, some id2 =>
    let stats1 ← get_stats_for_season b (some id1) season_year
    let stats2 ← get_stats_for_season b (some id2) season_year
    match stats1, stats2 with
    | some s1, some s2 => return compareText name1 name2 s1 s2
    | _, _ =>
      return "❌ Stats not available for one or both players in " ++
        pyRepr season_year ++ "."
  | _, _ =>
    return "Could not find both players: " ++ name1 ++ " and " ++ name2 ++ "."

/-- The per-row lines of the top-scorers table: `for i, row in
top5.iterrows()` over the first five leader rows (dataframe index `i`
starts at 0, printed rank is `i+1`). -/
def topScorersRows : Nat → List LeaderRow → String
  | _, [] => ""
  | i, r :: rest =>
    "| " ++ pyStr (i + 1) ++ " | " ++ r.player ++ " | " ++ r.team ++ " | " ++
      fmt1 r.pts ++ " |\n" ++ topScorersRows (i + 1) rest

/-- `get_top_scorers(season_year, stat='PTS')`.  The season label is
computed outside the `try`; the bare `except:` converts any backend
exception into the "Couldn't fetch" message, so this function is total. -/
def get_top_scorers (b : Backend) (season_year : String) : String :=
  let season_id := seasonIdOfYear season_year
  match b.leagueLeaders season_id with
  | Except.error _ =>
    "Couldn't fetch top PTS leaders for " ++ season_id ++ "."
  | Except.ok df =>
    "🏀 Top 5 players by PTS in " ++ season_id ++ ":\n\n" ++
    "| Rank | Player | Team | PTS |\n|------|--------|------|------|\n" ++
    topScorersRows 0 (df.take 5)

/-- `get_career_averages(player_id)`.  No `try` block: a backend exception
(or `iloc[-1]` on an empty career table) propagates.  Returns the fields of
the LAST career row. -/
def get_career_averages (b : Backend) (player_id : Nat) :
    Except String CareerAvg := do
  let df ← b.playerCareerStats (some player_id)
  let row ← iloc_last df
  return ⟨row.pts, row.ast, row.reb, row.gp, row.fg_pct⟩

/-- `safe(field)` inside `get_player_bio`: missing, NaN, or empty fields
render as `"N/A"` (a NaN raw value is modelled as `some none`). -/
def safe (data : List (String × Option String)) (field : String) : String :=
  match data.lookup field with
  | none => "N/A"
  | some none => "N/A"
  | some (some v) => if v == "" then "N/A" else v

/-- The bio text of `get_player_bio` (lines 147-157). -/
def bioText (player : Player) (data : List (String × Option String)) : String :=
  "🧬 **" ++ safe data "DISPLAY_FIRST_LAST" ++ "**\n\n" ++
  "**Position:** " ++ safe data "POSITION" ++ "\n\n" ++
  "**Team:** " ++ safe data "TEAM_NAME" ++ " (" ++
    safe data "TEAM_ABBREVIATION" ++ ")\n\n" ++
  "**Height:** " ++ safe data "HEIGHT" ++ "  |  **Weight:** " ++
    safe data "WEIGHT" ++ " lbs\n\n" ++
  "**Birth Date:** " ++
    (if safe data "BIRTHDATE" == "N/A" then "N/A"
     else pyTake10 (safe data "BIRTHDATE")) ++ "\n\n" ++
  "**Country:** " ++ safe data "COUNTRY" ++ "\n\n" ++
  "**Draft Info:** " ++ safe data "DRAFT_YEAR" ++ " Round " ++
    safe data "DRAFT_ROUND" ++ ", Pick " ++ safe data "DRAFT_NUMBER" ++ "\n\n" ++
  "**Years Pro:** " ++ safe data "SEASON_EXP" ++ "\n\n" ++
  "**Is Active:** " ++ (if player.is_active then "✅ Yes" else "❌ No")

/-- `get_player_bio(name)`.  Exact case-insensitive roster lookup; the
backend call and formatting sit inside `try/except Exception as e`, so any
exception is converted into the "Could not fetch" message. -/
def get_player_bio (b : Backend) (all_players : List Player) (name : String) :
    String :=
  match all_players.find? (fun p => pyLower p.full_name == pyLower name) with
  | none => "Player not found."
  | some player =>
    match b.commonPlayerInfo player.id with
    | Except.error e =>
      "❌ Could not fetch detailed bio for " ++ name ++ ". Error: " ++ e
    | Except.ok data => bioText player data

/-- Trigger of the Top Scorers rule (line 180):
`"top" in text and ("scorers" in text or "points" in text or "ppg" in text)`. -/
def top_trigger (text : String) : Bool :=
  pyIn "top" text && (pyIn "scorers" text || pyIn "points" text || pyIn "ppg" text)

/-- Keyword part of the Career rule (line 187):
`"career" in text or "all-time" in text or "all time" in text`. -/
def career_trigger (text : String) : Bool :=
  pyIn "career" text || pyIn "all-time" text || pyIn "all time" text

/-- Keyword part of the Bio rule (line 202): `"bio" in text or "info" in text`. -/
def bio_trigger (text : String) : Bool :=
  pyIn "bio" text || pyIn "info" text

/-- The branch of `generate_response` selected for a turn, carrying the
entities the branch body reads. -/
inductive Routed where
  | topScorers
  | career (p : String)
  | bioIntent (p : String)
  | compare (n1 n2 : String)
  | seasonStat (p : String)
  | unrecognized
deriving DecidableEq

/-- The `if`-cascade of `generate_response` (lines 180-213): the first
condition that holds selects the branch.  `player_name` is the
post-fallback resolved player, `players_in_text` the exact multi-match
result; `Bool` guards are exactly the Python conditions in source order
(the career/bio rules test `player_name and (...)`, so they cannot fire
without a resolved player; the "couldn't recognize" return at line 210
fires when no branch above it did and no player is resolved). -/
def route (text : String) (player_name : Option String)
    (players_in_text : Option (String × String)) : Routed :=
  if top_trigger text then .topScorers
  else
    match player_name with
    | some p =>
      if career_trigger text then .career p
      else if bio_trigger text then .bioIntent p
      else
        match players_in_text with
        | some (n1, n2) => .compare n1 n2
        | none => .seasonStat p
    | none =>
      match players_in_text with
      | some (n1, n2) => .compare n1 n2
      | none => .unrecognized

/-- The career-averages text of lines 192-199. -/
def careerText (p : String) (career : CareerAvg) : String :=
  "📈 Career Averages for " ++ p ++ ":\n" ++
  "- Games: " ++ pyStr career.games ++ "\n" ++
  "- PPG: " ++ fmt1 career.pts ++ "\n" ++
  "- APG: " ++ fmt1 career.ast ++ "\n" ++
  "- RPG: " ++ fmt1 career.reb ++ "\n" ++
  "- FG%: " ++ fmt1 (career.fg_pct * 100) ++ "%"

/-- The career-stats branch body (lines 187-199). -/
def career_branch (e : Env) (p : String) : Except String String :=
  match find_player_id e.all_players p with
  | none => Except.ok ("Player " ++ p ++ " not found.")
  | some pid => (get_career_averages e.backend pid).map (careerText p)

/-- The single-player stat branch body (lines 213-233): season lookup,
the two miss messages, then the keyword-selected stat sentence. -/
def season_stat_branch (e : Env) (text : String) (p : String)
    (season_year : Option String) : Except String String := do
  let stats ← get_stats_for_season e.backend (find_player_id e.all_players p)
    season_year
  match stats with
  | none =>
    match season_year with
    | some y =>
      return "❌ " ++ p ++ " did not play in the " ++ seasonIdOfYear y ++
        " season."
    | none => return "❌ No stats found for " ++ p ++ "."
  | some stats =>
    if pyIn "points" text || pyIn "ppg" text then
      return p ++ " scored " ++ fmt1 stats.pts ++ " PPG in the " ++
        stats.season ++ " season."
    else if pyIn "assists" text || pyIn "apg" text then
      return p ++ " made " ++ fmt1 stats.ast ++ " APG in the " ++
        stats.season ++ " season."
    else if pyIn "rebounds" text || pyIn "rpg" text then
      return p ++ " got " ++ fmt1 stats.reb ++ " RPG in the " ++
        stats.season ++ " season."
    else if pyIn "team" text then
      return p ++ " played for " ++ stats.team ++ " in the " ++
        stats.season ++ " season."
    else if pyIn "fg" text || pyIn "field goal" text then
      return p ++ "'s FG% in the " ++ stats.season ++ " season was " ++
        fmt1 (stats.fg_pct * 100) ++ "%."
    else
      return p ++ " in the " ++ stats.season ++ " season (with " ++
        stats.team ++ "):\n" ++
        "Games: " ++ pyStr stats.games ++ ", PPG: " ++ fmt1 stats.pts ++
        ", APG: " ++ fmt1 stats.ast ++ ", RPG: " ++ fmt1 stats.reb ++
        ", FG%: " ++ fmt1 (stats.fg_pct * 100) ++ "%"

/-- `generate_response(user_input)` plus the session-state mutations it
performs (lines 162-233).  Returns the produced text (`Except.error` when
an uncaught backend exception escapes, exactly where the Python has no
`try`) together with the session state as it stands after the turn —
the state writes at lines 167-177 happen before any handler runs. -/
def generate_response (e : Env) (st : DialogueState) (user_input : String) :
    Except String String × DialogueState :=
  let text := pyLower user_input
  let extracted := extract_season_year text
  let players_in_text := find_multiple_players (player_names e.all_players) text
  let season_year : Option String :=
    match extracted with
    | none => st.last_season
    | some y => some y
  let st1 : DialogueState :=
    match extracted with
    | none => st
    | some y => { st with last_season := some y }
  let fuzzyRes := e.fuzzy user_input
  let player_name : Option String :=
    match fuzzyRes with
    | some p => some p
    | none => st1.last_player
  let st2 : DialogueState :=
    match fuzzyRes with
    | some p => { st1 with last_player := some p }
    | none => st1
  let out : Except String String :=
    match route text player_name players_in_text with
    | .topScorers =>
      match season_year with
      | some y => Except.ok (get_top_scorers e.backend y)
      | none => Except.ok "Please specify a year, like 'Top scorers 2022'."
    | .career p => career_branch e p
    | .bioIntent p => Except.ok (get_player_bio e.backend e.all_players p)
    | .compare n1 n2 => compare_players e.backend e.all_players n1 n2 season_year
    | .seasonStat p => season_stat_branch e text p season_year
    | .unrecognized =>
      Except.ok "I couldn't recognize any player. Try again with a name like 'LeBron James'."
  (out, st2)

/-- `toSeasonLabel(Y)` of the spec: the line-50 transformation applied to
an integer calendar year `Y` (in the script, `season_year` is `str(Y)`). -/
def toSeasonLabel (y : Nat) : String := seasonIdOfYear (pyStr y)

/-- Two-digit zero-padded decimal of `m` (for `m < 100`). -/
def pad2 (m : Nat) : String := String.mk [digitChar (m / 10), digitChar (m % 10)]

/-- Modelled from the spec's words (for comparison with `toSeasonLabel`):
`"{Y-1}-{last two digits of Y, zero-padded to two digits}"`. -/
def specSeasonLabel (y : Nat) : String := pyStr (y - 1) ++ "-" ++ pad2 (y % 100)

theorem digitChar_toNat : ∀ d < 10, (digitChar d).toNat = 48 + d := by decide

theorem natDigits_foldl (n : Nat) : ∀ (a : Nat),
    (natDigits n).foldl (fun a c => a * 10 + (c.toNat - 48)) a =
      a * 10 ^ (natDigits n).length + n := by
  induction n using Nat.strong_induction_on with
  | _ n ih =>
    intro a
    by_cases h : n < 10
    · rw [natDigits_eq]
      simp only [h, if_true, List.foldl_cons, List.foldl_nil, List.length_cons,
        List.length_nil, digitChar_toNat n h]
      simp [pow_succ]
    · rw [natDigits_eq]
      simp only [h, if_false, List.foldl_append, List.foldl_cons, List.foldl_nil,
        List.length_append, List.length_cons, List.length_nil]
      rw [ih (n / 10) (Nat.div_lt_self (by omega) (by omega)) a,
        digitChar_toNat (n % 10) (Nat.mod_lt n (by omega))]
      have hdm : 10 * (n / 10) + n % 10 = n := Nat.div_add_mod n 10
      have hp : (10 : Nat) ^ ((natDigits (n / 10)).length + (0 + 1)) =
          10 ^ (natDigits (n / 10)).length * 10 := by
        rw [Nat.zero_add, pow_succ]
      rw [hp]
      calc (a * 10 ^ (natDigits (n / 10)).length + n / 10) * 10 + (48 + n % 10 - 48)
          = a * (10 ^ (natDigits (n / 10)).length * 10) +
              (10 * (n / 10) + n % 10) := by ring_nf; omega
        _ = a * (10 ^ (natDigits (n / 10)).length * 10) + n := by rw [hdm]

theorem pyToInt_pyStr (n : Nat) : pyToInt (pyStr n) = (n : Int) := by
  unfold pyToInt pyStr
  have h := natDigits_foldl n 0
  simp only [Nat.zero_mul] at h
  simp [h]

theorem natDigits_last_two (n : Nat) (h : 10 ≤ n) :
    ∃ pre, natDigits n = pre ++ [digitChar (n / 10 % 10), digitChar (n % 10)] := by
  by_cases h2 : n / 10 < 10
  · refine ⟨[], ?_⟩
    rw [natDigits_eq]
    simp only [show ¬n < 10 by omega, if_false]
    rw [natDigits_eq]
    simp [h2, Nat.mod_eq_of_lt h2]
  · refine ⟨natDigits (n / 10 / 10), ?_⟩
    rw [natDigits_eq]
    simp only [show ¬n < 10 by omega, if_false]
    rw [natDigits_eq]
    simp [h2]

theorem lastTwo_pyStr (n : Nat) (h : 10 ≤ n) : lastTwo (pyStr n) = pad2 (n % 100) := by
  obtain ⟨pre, hpre⟩ := natDigits_last_two n h
  unfold lastTwo pyStr pad2
  rw [hpre]
  have hlen : (pre ++ [digitChar (n / 10 % 10), digitChar (n % 10)]).length - 2 =
      pre.length := by simp
  rw [hlen]
  have hdrop : (pre ++ [digitChar (n / 10 % 10), digitChar (n % 10)]).drop pre.length =
      [digitChar (n / 10 % 10), digitChar (n % 10)] := by
    simpa using List.drop_left pre [digitChar (n / 10 % 10), digitChar (n % 10)]
  rw [hdrop]
  have h1 : n % 100 / 10 = n / 10 % 10 := by
    have := Nat.mod_mul_right_div_self n 10 10
    simpa using this
  have h2 : n % 100 % 10 = n % 10 := Nat.mod_mod_of_dvd n (by norm_num)
  rw [h1, h2]

theorem pyStrInt_ofNat_sub_one (y : Nat) (h : 1 ≤ y) :
    pyStrInt ((y : Int) - 1) = pyStr (y - 1) := by
  unfold pyStrInt
  rw [if_neg (by omega)]
  congr 1
  omega

theorem fmpGo_some (text a : String) : ∀ (l : List String),
    fmpGo text l (some a) =
      match l.filter (fun n => pyIn (pyLower n) (pyLower text)) with
      | [] => none
      | b :: _ => some (a, b) := by
  intro l
  induction l with
  | nil => rfl
  | cons n rest ih =>
    by_cases h : pyIn (pyLower n) (pyLower text) <;>
      simp [fmpGo, h, ih, List.filter_cons]

theorem fmpGo_none (text : String) : ∀ (l : List String),
    fmpGo text l none =
      match l.filter (fun n => pyIn (pyLower n) (pyLower text)) with
      | a :: b :: _ => some (a, b)
      | _ => none := by
  intro l
  induction l with
  | nil => rfl
  | cons n rest ih =>
    by_cases h : pyIn (pyLower n) (pyLower text)
    · simp only [fmpGo, h, if_true, List.filter_cons, fmpGo_some text n rest]
      cases rest.filter (fun n => pyIn (pyLower n) (pyLower text)) <;> simp
    · simp [fmpGo, h, ih, List.filter_cons]

theorem find_multiple_players_filter (names : List String) (text : String) :
    find_multiple_players names text =
      match names.filter (fun n => pyIn (pyLower n) (pyLower text)) with
      | a :: b :: _ => some (a, b)
      | _ => none := by
  unfold find_multiple_players
  exact fmpGo_none text names

/-- First-matching-rule dispatch over an ordered `(trigger, intent)` list. -/
def firstMatch (dflt : Routed) : List (Bool × Routed) → Routed
  | [] => dflt
  | (c, r) :: rest => if c then r else firstMatch dflt rest

/-- Modelled from the spec's words (§4.3, for comparison with `route`): the
strictly ordered predicate chain TopScorers, CareerAverages, Bio, Compare,
SeasonStat, unrecognized — the first rule whose trigger holds wins. -/
def specRoute (text : String) (pn : Option String)
    (pit : Option (String × String)) : Routed :=
  firstMatch .unrecognized
    [ (top_trigger text, .topScorers),
      (pn.isSome && career_trigger text, .career (pn.getD "")),
      (pn.isSome && bio_trigger text, .bioIntent (pn.getD "")),
      (pit.isSome, .compare (pit.getD ("", "")).1 (pit.getD ("", "")).2),
      (pn.isSome, .seasonStat (pn.getD "")) ]

theorem route_eq_specRoute (text : String) (pn : Option String)
    (pit : Option (String × String)) : route text pn pit = specRoute text pn pit := by
  cases pn <;> cases pit <;>
    simp only [route, specRoute, firstMatch, Option.isSome_some, Option.isSome_none,
      Option.getD_some, Option.getD_none, Bool.false_and, Bool.true_and, if_false] <;>
    cases top_trigger text <;> cases career_trigger text <;> cases bio_trigger text <;>
    simp

theorem find_player_id_mem_isSome (ps : List Player) (name : String)
    (hm : name ∈ player_names ps) : (find_player_id ps name).isSome := by
  obtain ⟨p, hpmem, hfeq⟩ := List.mem_map.mp hm
  subst hfeq
  unfold find_player_id
  cases hfind : ps.find? (fun q => pyLower q.full_name == pyLower p.full_name) with
  | none =>
    have := List.find?_eq_none.mp hfind p hpmem
    simp at this
  | some q => simp

/-- A backend whose every operation raises. -/
def bErr : Backend :=
  ⟨fun _ => Except.error "ConnectionError",
   fun _ => Except.error "ConnectionError",
   fun _ => Except.error "ConnectionError"⟩

/-- A tiny concrete roster. -/
def exPlayers : List Player :=
  [⟨"LeBron James", 2544, true⟩, ⟨"Stephen Curry", 201939, true⟩]

/-- Two concrete career rows (chronological: `rowB` is the most recent). -/
def rowA : SeasonRow := ⟨"2018-19", "LAL", (274 : Rat) / 10, (83 : Rat) / 10,
  (85 : Rat) / 10, 55, (51 : Rat) / 100⟩

def rowB : SeasonRow := ⟨"2019-20", "LAL", (253 : Rat) / 10, (102 : Rat) / 10,
  (78 : Rat) / 10, 67, (493 : Rat) / 1000⟩

/-- A backend with a career table for LeBron James only. -/
def bTbl : Backend :=
  ⟨fun pid => if pid == some 2544 then Except.ok [rowA, rowB] else Except.ok [],
   fun _ => Except.ok [],
   fun _ => Except.ok []⟩

/-- Environment: tiny roster, a fuzzy oracle that resolves LeBron James,
the raising backend. -/
def eFuzz : Env := ⟨exPlayers, fun _ => some "LeBron James", bErr⟩

/-- Environment: same roster and oracle over the table backend. -/
def eTbl : Env := ⟨exPlayers, fun _ => some "LeBron James", bTbl⟩

/-- C1 counterexample utterance: contains "career", both roster names, and
also the TopScorers keywords "top" and "points". -/
def c1Text : String := "top points career lebron james stephen curry"

/-- C1: the claim as stated fails: on an utterance containing "career",
with a player fuzzily resolved and the exact multi-match resolver finding
two roster names, the chosen intent can still be TopScorers (rule 1
pre-empts rule 2), not CareerAverages — and the produced response is the
TopScorers prompt, not a career answer. -/
theorem C1_counterexample :
    pyIn "career" c1Text = true ∧
    find_multiple_players (player_names exPlayers) c1Text =
      some ("LeBron James", "Stephen Curry") ∧
    route c1Text (some "LeBron James") (some ("LeBron James", "Stephen Curry")) =
      Routed.topScorers ∧
    (generate_response eFuzz ⟨none, none⟩ c1Text).1 =
      Except.ok "Please specify a year, like 'Top scorers 2022'." := by
  refine ⟨by decide, by decide, by decide, by rfl⟩

/-- C1 (amended): the router is the strictly ordered first-match predicate
chain TopScorers, CareerAverages, Bio, Compare, SeasonStat, unrecognized
(`route = specRoute`); and whenever the utterance contains "career", a
player is resolved and the exact multi-match resolver finds two names,
PROVIDED the TopScorers trigger does not hold, the chosen intent is
CareerAverages for the fuzzy-resolved player, not Compare. -/
theorem C1_router_precedence (text : String) (pn : Option String)
    (pit : Option (String × String)) :
    route text pn pit = specRoute text pn pit ∧
    (∀ p n1 n2, pn = some p → pit = some (n1, n2) →
      career_trigger text = true → top_trigger text = false →
      route text pn pit = Routed.career p ∧
      route text pn pit ≠ Routed.compare n1 n2) := by
  refine ⟨route_eq_specRoute text pn pit, ?_⟩
  intro p n1 n2 hpn hpit hc ht
  subst hpn hpit
  simp [route, ht, hc]

/-- C1 witness: with "career" present, both names found, and no TopScorers
keywords, the router picks CareerAverages. -/
theorem C1_witness :
    route "career lebron james stephen curry" (some "LeBron James")
        (some ("LeBron James", "Stephen Curry")) = Routed.career "LeBron James" ∧
    route "career lebron james stephen curry" (some "LeBron James")
        (some ("LeBron James", "Stephen Curry")) ≠
      Routed.compare "LeBron James" "Stephen Curry" :=
  (C1_router_precedence "career lebron james stephen curry"
      (some "LeBron James") (some ("LeBron James", "Stephen Curry"))).2
    "LeBron James" "LeBron James" "Stephen Curry" rfl rfl (by decide) (by decide)

/-- C2: on every turn, the state returned by `generate_response` has
`last_player` overwritten exactly when the fuzzy resolver succeeds on the
current utterance and `last_season` overwritten exactly when the utterance
yields a 4-digit year, each falling back to the stored value otherwise —
for every backend and regardless of the selected handler's outcome. -/
theorem C2_state_update (e : Env) (st : DialogueState) (u : String) :
    (generate_response e st u).2 =
      ⟨match e.fuzzy u with | some p => some p | none => st.last_player,
       match extract_season_year (pyLower u) with
       | some y => some y | none => st.last_season⟩ := by
  cases h1 : e.fuzzy u <;> cases h2 : extract_season_year (pyLower u) <;>
    simp [generate_response, h1, h2]

/-- C3 counterexample roster and utterance: three roster names, all present
in the utterance. -/
def c3Names : List String := ["LeBron James", "Stephen Curry", "Kevin Durant"]

def c3Text : String := "compare lebron james and stephen curry and kevin durant"

/-- C3: the claim as stated fails: on an utterance containing three roster
names, `find_multiple_players` does not return none — it returns the first
two names in roster enumeration order. -/
theorem C3_counterexample :
    (c3Names.filter (fun n => pyIn (pyLower n) (pyLower c3Text))).length = 3 ∧
    find_multiple_players c3Names c3Text = some ("LeBron James", "Stephen Curry") := by
  refine ⟨by decide, by decide⟩

/-- C3 (amended): `find_multiple_players` scans the roster in enumeration
order testing case-insensitive substring containment; it returns none when
at most one roster name is present, and the FIRST TWO names (in roster
order) whenever two or more are present — so one name yields none, but
three or more yield the first two rather than none. -/
theorem C3_first_two (names : List String) (text : String) :
    ((names.filter (fun n => pyIn (pyLower n) (pyLower text))).length ≤ 1 →
      find_multiple_players names text = none) ∧
    (∀ a b rest, names.filter (fun n => pyIn (pyLower n) (pyLower text)) = a :: b :: rest →
      find_multiple_players names text = some (a, b)) := by
  rw [find_multiple_players_filter]
  constructor
  · intro h
    cases hf : names.filter (fun n => pyIn (pyLower n) (pyLower text)) with
    | nil => simp
    | cons a rest =>
      cases rest with
      | nil => simp
      | cons b rest2 => rw [hf] at h; simp at h
  · intro a b rest h
    rw [h]

/-- C3 witness: exactly two roster names present yields exactly that pair;
exactly one present yields none. -/
theorem C3_witness :
    find_multiple_players c3Names "lebron james vs stephen curry" =
      some ("LeBron James", "Stephen Curry") ∧
    find_multiple_players c3Names "just lebron james" = none :=
  ⟨(C3_first_two c3Names "lebron james vs stephen curry").2
      "LeBron James" "Stephen Curry" [] (by decide),
   (C3_first_two c3Names "just lebron james").1 (by decide)⟩

/-- C4: the claim as stated fails: a backend exception raised during the
season-stat career-table lookup is NOT converted into a renderable result —
it escapes `generate_response` (the turn's output is the raw error, not an
`Except.ok` message). -/
theorem C4_counterexample :
    (generate_response eFuzz ⟨none, none⟩ "lebron james 2020").1 =
      Except.error "ConnectionError" := by rfl

/-- C4 (amended): only the league-leaders and bio call sites are wrapped
(their backend exceptions become "couldn't fetch" messages); the
career-table call sites are not wrapped — a backend exception raised inside
`get_stats_for_season` or `get_career_averages` propagates unchanged. -/
theorem C4_backend_wrapping :
    (∀ (b : Backend) (y m : String),
      b.leagueLeaders (seasonIdOfYear y) = Except.error m →
      get_top_scorers b y =
        "Couldn't fetch top PTS leaders for " ++ seasonIdOfYear y ++ ".") ∧
    (∀ (b : Backend) (ps : List Player) (name m : String) (p : Player),
      ps.find? (fun q => pyLower q.full_name == pyLower name) = some p →
      b.commonPlayerInfo p.id = Except.error m →
      get_player_bio b ps name =
        "❌ Could not fetch detailed bio for " ++ name ++ ". Error: " ++ m) ∧
    (∀ (b : Backend) (pid : Option Nat) (sy : Option String) (m : String),
      b.playerCareerStats pid = Except.error m →
      get_stats_for_season b pid sy = Except.error m) ∧
    (∀ (b : Backend) (pid : Nat) (m : String),
      b.playerCareerStats (some pid) = Except.error m →
      get_career_averages b pid = Except.error m) := by
  refine ⟨?_, ?_, ?_, ?_⟩
  · intro b y m h
    simp [get_top_scorers, h]
  · intro b ps name m p h1 h2
    simp [get_player_bio, h1, h2]
  · intro b pid sy m h
    simp [get_stats_for_season, h, Bind.bind, Except.bind]
  · intro b pid m h
    simp [get_career_averages, h, Bind.bind, Except.bind]

/-- C4 witness: concrete raising backend — the wrapped top-scorers site
renders a message, the unwrapped career-table site propagates the error. -/
theorem C4_witness :
    get_top_scorers bErr "2022" =
      "Couldn't fetch top PTS leaders for " ++ seasonIdOfYear "2022" ++ "." ∧
    get_stats_for_season bErr (some 2544) (some "2020") =
      Except.error "ConnectionError" ∧
    get_career_averages bErr 2544 = Except.error "ConnectionError" :=
  ⟨C4_backend_wrapping.1 bErr "2022" "ConnectionError" rfl,
   C4_backend_wrapping.2.2.1 bErr (some 2544) (some "2020") "ConnectionError" rfl,
   C4_backend_wrapping.2.2.2 bErr 2544 "ConnectionError" rfl⟩

/-- C5: the claim as stated fails for years below 10: the code's suffix is
`str(Y)[-2:]`, which is NOT zero-padded when `str(Y)` has a single digit —
`toSeasonLabel(5)` is `"4-5"`, not the `"4-05"` the spec's formula gives. -/
theorem C5_counterexample :
    toSeasonLabel 5 = "4-5" ∧ specSeasonLabel 5 = "4-05" ∧
    toSeasonLabel 5 ≠ specSeasonLabel 5 := by
  refine ⟨by decide, by decide, by decide⟩

/-- C5 (amended): for every year Y with 10 ≤ Y ≤ 9999 the transformation is
total and equals `"{Y-1}-{last two digits of Y, zero-padded to two
digits}"`; for 1 ≤ Y ≤ 9 the suffix is the single unpadded digit. -/
theorem C5_season_label (y : Nat) (h1 : 10 ≤ y) (h2 : y ≤ 9999) :
    toSeasonLabel y = specSeasonLabel y := by
  unfold toSeasonLabel seasonIdOfYear specSeasonLabel
  rw [pyToInt_pyStr, pyStrInt_ofNat_sub_one y (by omega), lastTwo_pyStr y h1]

/-- C5 witness: the spec's three examples, via the amended theorem. -/
theorem C5_witness :
    toSeasonLabel 2022 = specSeasonLabel 2022 ∧
    toSeasonLabel 2022 = "2021-22" ∧
    toSeasonLabel 2000 = "1999-00" ∧
    toSeasonLabel 1905 = "1904-05" :=
  ⟨C5_season_label 2022 (by norm_num) (by norm_num), by decide, by decide, by decide⟩

/-- C6: for the SeasonStat lookup, a resolved season requires an exact
match on the computed season label: (1) if no row carries that exact label
the result is `None` — no nearest-season fallback, whatever other rows the
table has; (2) with no season resolved, the last career row is used; (3) an
exact miss is surfaced by the SeasonStat branch as the "did not play"
message naming that exact season label. -/
theorem C6_exact_season_match :
    (∀ (b : Backend) (pid : Option Nat) (y : String) (df : List SeasonRow),
      b.playerCareerStats pid = Except.ok df →
      df.filter (fun r => r.season_id == seasonIdOfYear y) = [] →
      get_stats_for_season b pid (some y) = Except.ok none) ∧
    (∀ (b : Backend) (pid : Option Nat) (df : List SeasonRow) (r : SeasonRow),
      b.playerCareerStats pid = Except.ok df → df.getLast? = some r →
      get_stats_for_season b pid none =
        Except.ok (some ⟨r.season_id, r.team_abbreviation, r.pts, r.ast, r.reb,
          r.gp, r.fg_pct⟩)) ∧
    (∀ (e : Env) (text p y : String),
      get_stats_for_season e.backend (find_player_id e.all_players p) (some y) =
        Except.ok none →
      season_stat_branch e text p (some y) =
        Except.ok ("❌ " ++ p ++ " did not play in the " ++ seasonIdOfYear y ++
          " season.")) := by
  refine ⟨?_, ?_, ?_⟩
  · intro b pid y df h1 h2
    simp [get_stats_for_season, h1, h2, Bind.bind, Except.bind]
    rfl
  · intro b pid df r h1 h2
    simp [get_stats_for_season, iloc_last, h1, h2, Bind.bind, Except.bind]
    rfl
  · intro e text p y h
    simp [season_stat_branch, h, Bind.bind, Except.bind]
    rfl

/-- C6 witness: LeBron's concrete table has no "1949-50" row, so season
1950 is an exact miss surfaced with that label; with no season, the last
row (2019-20) is returned. -/
theorem C6_witness :
    get_stats_for_season bTbl (some 2544) (some "1950") = Except.ok none ∧
    get_stats_for_season bTbl (some 2544) none =
      Except.ok (some ⟨rowB.season_id, rowB.team_abbreviation, rowB.pts, rowB.ast,
        rowB.reb, rowB.gp, rowB.fg_pct⟩) ∧
    season_stat_branch eTbl "lebron james in 1950" "LeBron James" (some "1950") =
      Except.ok ("❌ " ++ "LeBron James" ++ " did not play in the " ++
        seasonIdOfYear "1950" ++ " season.") :=
  ⟨C6_exact_season_match.1 bTbl (some 2544) "1950" [rowA, rowB] rfl (by decide),
   C6_exact_season_match.2.1 bTbl (some 2544) [rowA, rowB] rowB rfl rfl,
   C6_exact_season_match.2.2 eTbl "lebron james in 1950" "LeBron James" "1950"
     (C6_exact_season_match.1 bTbl (some 2544) "1950" [rowA, rowB] rfl (by decide))⟩

/-- C7: whenever the TopScorers trigger fires on the lower-cased utterance
but no season resolves (no year token in the text, none stored in state),
the turn's output is the prompt-for-year message — for EVERY environment,
in particular for every backend, so the stats backend is never consulted. -/
theorem C7_top_scorers_prompt (e : Env) (st : DialogueState) (u : String)
    (h1 : top_trigger (pyLower u) = true)
    (h2 : extract_season_year (pyLower u) = none)
    (h3 : st.last_season = none) :
    (generate_response e st u).1 =
      Except.ok "Please specify a year, like 'Top scorers 2022'." := by
  cases h4 : e.fuzzy u <;>
    simp [generate_response, route, h1, h2, h3, h4]

/-- C7 witness: "Top scorers" with empty state, over the raising backend —
the answer is the prompt, untouched by the backend. -/
theorem C7_witness :
    (generate_response eFuzz ⟨none, none⟩ "Top scorers").1 =
      Except.ok "Please specify a year, like 'Top scorers 2022'." :=
  C7_top_scorers_prompt eFuzz ⟨none, none⟩ "Top scorers" (by decide) (by decide) rfl

/-- C8: the career-averages result is exactly the stat fields of the LAST
row of the backend's chronological career table — the most recent season's
line, not an average across seasons. -/
theorem C8_career_last_row (b : Backend) (pid : Nat) (df : List SeasonRow)
    (r : SeasonRow) (h1 : b.playerCareerStats (some pid) = Except.ok df)
    (h2 : df.getLast? = some r) :
    get_career_averages b pid = Except.ok ⟨r.pts, r.ast, r.reb, r.gp, r.fg_pct⟩ := by
  simp [get_career_averages, iloc_last, h1, h2, Bind.bind, Except.bind]
  rfl

/-- C8 witness: on the concrete two-row table the result is `rowB` (the
last row), whose points differ from the two-season average. -/
theorem C8_witness :
    get_career_averages bTbl 2544 =
      Except.ok ⟨rowB.pts, rowB.ast, rowB.reb, rowB.gp, rowB.fg_pct⟩ ∧
    rowB.pts ≠ (rowA.pts + rowB.pts) / 2 :=
  ⟨C8_career_last_row bTbl 2544 [rowA, rowB] rowB rfl rfl, by norm_num [rowA, rowB]⟩

/-- C9: the claim as stated fails: when one of two resolved players lacks a
stat row for the requested season, the surfaced message is the generic
"Stats not available for one or both players in {year}." — it does not
name either player (nor the computed season label). -/
theorem C9_counterexample :
    compare_players bTbl exPlayers "LeBron James" "Stephen Curry" (some "2019") =
      Except.ok "❌ Stats not available for one or both players in 2019." ∧
    pyIn "LeBron James" "❌ Stats not available for one or both players in 2019."
      = false ∧
    pyIn "Stephen Curry" "❌ Stats not available for one or both players in 2019."
      = false ∧
    pyIn "2018-19" "❌ Stats not available for one or both players in 2019."
      = false := by
  refine ⟨by rfl, by decide, by decide, by decide⟩

/-- C9 (amended): when both players resolve but either lacks a stat row for
the resolved season, the result is the StatsUnavailable message naming only
the resolved season year (or `None`), not the player names. -/
theorem C9_unavailable_message (b : Backend) (ps : List Player) (n1 n2 : String)
    (sy : Option String) (id1 id2 : Nat) (o1 o2 : Option Stats)
    (h1 : find_player_id ps n1 = some id1)
    (h2 : find_player_id ps n2 = some id2)
    (h3 : get_stats_for_season b (some id1) sy = Except.ok o1)
    (h4 : get_stats_for_season b (some id2) sy = Except.ok o2)
    (h5 : o1 = none ∨ o2 = none) :
    compare_players b ps n1 n2 sy =
      Except.ok ("❌ Stats not available for one or both players in " ++
        pyRepr sy ++ ".") := by
  rcases h5 with rfl | rfl
  · cases o2 <;> simp [compare_players, h1, h2, h3, h4, Bind.bind, Except.bind] <;> rfl
  · cases o1 <;> simp [compare_players, h1, h2, h3, h4, Bind.bind, Except.bind] <;> rfl

/-- C9 witness: LeBron has a 2018-19 row, Curry's table is empty, season
year "2019" resolved — the message interpolates the year. -/
theorem C9_witness :
    compare_players bTbl exPlayers "LeBron James" "Stephen Curry" (some "2019") =
      Except.ok ("❌ Stats not available for one or both players in " ++
        pyRepr (some "2019") ++ ".") :=
  C9_unavailable_message bTbl exPlayers "LeBron James" "Stephen Curry"
    (some "2019") 2544 201939
    (some ⟨rowA.season_id, rowA.team_abbreviation, rowA.pts, rowA.ast, rowA.reb,
      rowA.gp, rowA.fg_pct⟩) none rfl rfl (by rfl) (by rfl) (Or.inr rfl)

/-- C10: every name in the loaded roster list (in particular every name the
resolvers can return, as they draw candidates from that list) has a
successful case-insensitive id lookup: `find_player_id` is `some`; hence,
when the fuzzy oracle draws from the roster, the career branch after a
successful fuzzy resolution never takes its "player not found" arm. -/
theorem C10_roster_id_lookup :
    (∀ (ps : List Player) (name : String), name ∈ player_names ps →
      (find_player_id ps name).isSome) ∧
    (∀ (e : Env) (u p : String),
      (∀ t n, e.fuzzy t = some n → n ∈ player_names e.all_players) →
      e.fuzzy u = some p →
      ∃ pid, find_player_id e.all_players p = some pid ∧
        career_branch e p = (get_career_averages e.backend pid).map (careerText p)) := by
  refine ⟨fun ps name h => find_player_id_mem_isSome ps name h, ?_⟩
  intro e u p hdraw hf
  have hmem := hdraw u p hf
  have hsome := find_player_id_mem_isSome e.all_players p hmem
  obtain ⟨pid, hpid⟩ := Option.isSome_iff_exists.mp hsome
  exact ⟨pid, hpid, by simp [career_branch, hpid]⟩

/-- C10 witness: both concrete roster names look up successfully, and with
the roster-drawing oracle the career branch maps the backend result rather
than reporting "not found". -/
theorem C10_witness :
    (find_player_id exPlayers "Stephen Curry").isSome ∧
    ∃ pid, find_player_id exPlayers "LeBron James" = some pid ∧
      career_branch eFuzz "LeBron James" =
        (get_career_averages eFuzz.backend pid).map (careerText "LeBron James") :=
  ⟨C10_roster_id_lookup.1 exPlayers "Stephen Curry" (by decide),
   C10_roster_id_lookup.2 eFuzz "lebron career" "LeBron James"
     (fun t n h => by
       have hn : n = "LeBron James" := by injection h with h2; exact h2.symm
       subst hn; decide)
     rfl⟩
